import Mathlib

/-!
Shallow embedding of the numerical/data core of `2theta_SSRF_250403_final.py`
(energy-dispersive diffraction analysis tool, SSRF BL12SW).

Conventions of the embedding:
* Python/NumPy floats are modelled as rationals `ℚ` wherever the source only
  does field arithmetic and comparisons, and as reals `ℝ` where the source
  uses transcendental functions (`exp`, `sqrt`, `log`, `arcsin`).
* A NumPy NaN produced by `np.arcsin` on an out-of-domain argument is modelled
  as `none : Option ℝ`; NaN propagation through `np.mean` / `np.std` maps a
  list containing `none` to a `none` aggregate.
* A 2-D NumPy array is a list of rows, each a list of rationals; column `j` of
  a row is read with a default of `0` (NumPy arrays are rectangular, so the
  default is never consulted on well-formed data).
* The SciPy nonlinear solver `curve_fit` is an oracle parameter: it receives
  the sample subset and the initial guess and either returns optimal
  parameters with a covariance matrix, or fails (`none`), which models the
  exception path of the source.
-/

namespace SSRF

/-- The 10-color ROI/plot palette (`self.colors` in `XRDDataAnalyzer.__init__`). -/
def colors : List String :=
  ["#1f77b4", "#ff7f0e", "#2ca02c", "#d62728", "#9467bd",
   "#8c564b", "#e377c2", "#7f7f7f", "#bcbd22", "#17becf"]

/-- A region of interest as stored in `dataset.selected_regions` by
`on_release`: bounds, width and display color. The `rect` handle kept by the
GUI is a rendering artifact and is not part of the data model. -/
structure ROI where
  x_min : ℚ
  x_max : ℚ
  width : ℚ
  color : String
  deriving DecidableEq

/-- A fit record as appended to `dataset.fit_results` by `fit_peaks`:
parameters `[a, x0, sigma, b, c]`, the covariance matrix, and the derived
metrics. Values produced by the solver / transcendental formulas live in `ℝ`. -/
structure FitResult where
  params : List ℝ
  cov : List (List ℝ)
  fwhm : ℝ
  integral : ℝ
  r_squared : ℝ

/-- The `Dataset` class: raw `[channel, counts]` table, adjusted
`[energy, counts]` table, fit results, ROIs, and the calibration flag. -/
structure Dataset where
  raw_data : List (List ℚ)
  adjusted_data : List (List ℚ)
  fit_results : List FitResult
  selected_regions : List ROI
  x_axis_adjusted : Bool

/-- Column `j` of a row (`row[j]` on a NumPy array row). -/
def col (j : ℕ) (row : List ℚ) : ℚ := row.getD j 0

/-- `Dataset.__init__` with a loaded `raw_data`: the adjusted table starts as
`np.copy(raw_data)`, both result lists empty, `x_axis_adjusted = False`. -/
def Dataset.init (raw : List (List ℚ)) : Dataset :=
  { raw_data := raw
    adjusted_data := raw
    fit_results := []
    selected_regions := []
    x_axis_adjusted := false }

/-- `clear_all`: empties `selected_regions` and `fit_results` of the current
dataset (the rectangle-patch removal and UI refresh are rendering only). -/
def clear_all (ds : Dataset) : Dataset :=
  { ds with selected_regions := [], fit_results := [] }

/-- `adjust_energy_axis` on a dataset with loaded data and parsed coefficients
`a b c`: computes `energies = a*channels**2 + b*channels + c` from the raw
channel column, stacks them with the raw counts column into `adjusted_data`,
sets `x_axis_adjusted = True`, then calls `clear_all`. -/
def adjust_energy_axis (ds : Dataset) (a b c : ℚ) : Dataset :=
  let adjusted := ds.raw_data.map
    (fun row => [a * (col 0 row) ^ 2 + b * (col 0 row) + c, col 1 row])
  clear_all { ds with adjusted_data := adjusted, x_axis_adjusted := true }

/-- `on_release` during an active region selection: `x_start` is the press
abscissa (the stored x_min entry), `x_current` the release abscissa
(`event.xdata`). A region is committed only when
`abs(x_current - x_start) > 0.001`; it is normalized, colored by
`len(selected_regions) % len(colors)` and appended. -/
def on_release (ds : Dataset) (x_start x_current : ℚ) : Dataset :=
  if |x_current - x_start| > 1 / 1000 then
    let x_min := min x_start x_current
    let x_max := max x_start x_current
    let width := |x_max - x_min|
    let color := colors.getD (ds.selected_regions.length % colors.length) ""
    { ds with selected_regions :=
        ds.selected_regions ++ [⟨x_min, x_max, width, color⟩] }
  else ds

/-- The SciPy `curve_fit` call of `fit_peaks`, abstracted as an oracle: given
the sample subset of the ROI, the initial guess `p0`, and the ROI (whose bounds
feed the box constraints), it returns `(popt, pcov)` on convergence, or
`none` for the exception path (non-convergence or numerical error). -/
def Solver : Type :=
  List (ℚ × ℚ) → List ℚ → ROI → Option (List ℝ × List (List ℝ))

/-- The series `fit_peaks` reads:
`data = dataset.adjusted_data if dataset.x_axis_adjusted else dataset.raw_data`,
with `x_data = data[:, 0]` and `y_data = data[:, 1]` paired up. -/
def Dataset.currentPoints (ds : Dataset) : List (ℚ × ℚ) :=
  (if ds.x_axis_adjusted then ds.adjusted_data else ds.raw_data).map
    (fun row => (col 0 row, col 1 row))

/-- The mask `(x_data >= x_min) & (x_data <= x_max)` of the ROI applied to
the paired samples. -/
def subsetOf (pts : List (ℚ × ℚ)) (roi : ROI) : List (ℚ × ℚ) :=
  pts.filter (fun p => decide (roi.x_min ≤ p.1 ∧ p.1 ≤ roi.x_max))

/-- `np.argmax`: index of the first maximal element (0 on the empty list). -/
def argmaxIdx (l : List ℚ) : ℕ :=
  (l.enum.foldl (fun acc p => if acc.2 < p.2 then p else acc) (0, l.headD 0)).1

/-- `np.min` on a nonempty list of samples. -/
def listMin (l : List ℚ) : ℚ := l.foldl min (l.headD 0)

/-- The initial parameter guess `p0 = [a_guess, x0_guess, sigma_guess, b_guess,
c_guess]` built by `fit_peaks` from the samples of the ROI: peak height and its
abscissa, `(x_max - x_min)/6`, zero slope, minimum count. -/
def initialGuess (sub : List (ℚ × ℚ)) (roi : ROI) : List ℚ :=
  let ys := sub.map Prod.snd
  let peak_idx := argmaxIdx ys
  [ys.getD peak_idx 0,
   (sub.map Prod.fst).getD peak_idx 0,
   (roi.x_max - roi.x_min) / 6,
   0,
   listMin ys]

/-- `gaussian_with_baseline(x, a, x0, sigma, b, c)`: a Gaussian peak on a
linear baseline. -/
noncomputable def gaussian_with_baseline (x a x0 sigma b c : ℝ) : ℝ :=
  a * Real.exp (-(x - x0) ^ 2 / (2 * sigma ^ 2)) + b * x + c

/-- `np.linspace lo hi n`: `n` equally spaced grid points from `lo` to `hi`. -/
noncomputable def linspace (lo hi : ℝ) (n : ℕ) : List ℝ :=
  (List.range n).map (fun i => lo + (hi - lo) * i / ((n : ℝ) - 1))

/-- `scipy.integrate.simps(y, x)`: composite Simpson quadrature over the
sampled curve, pairing consecutive intervals from the left and closing a
trailing odd interval with the trapezoid rule. No claim constrains the
numerical value of this quadrature. -/
noncomputable def simps : List ℝ → List ℝ → ℝ
  | y0 :: y1 :: y2 :: ys, x0 :: _x1 :: x2 :: xs =>
      (x2 - x0) / 6 * (y0 + 4 * y1 + y2) + simps (y2 :: ys) (x2 :: xs)
  | [y0, y1], [x0, x1] => (x1 - x0) * (y0 + y1) / 2
  | _, _ => 0

/-- One iteration of the ROI loop of `fit_peaks` on a nonempty subset: call
the solver with the initial guess; on success store `popt`, `pcov` and the
derived metrics (`R²` against the subset mean, `FWHM = 2·√(2·ln 2)·σ`, and the
Simpson integral of the Gaussian term alone over a 1000-point grid); on
failure store the degenerate record (initial guess, `np.zeros((5,5))`, zeros). -/
noncomputable def fitOne (solver : Solver) (sub : List (ℚ × ℚ)) (roi : ROI) :
    FitResult :=
  let p0 := initialGuess sub roi
  match solver sub p0 roi with
  | some (popt, pcov) =>
      let g : ℝ → ℝ := fun x =>
        gaussian_with_baseline x (popt.getD 0 0) (popt.getD 1 0) (popt.getD 2 0)
          (popt.getD 3 0) (popt.getD 4 0)
      let ss_res := (sub.map (fun p => ((p.2 : ℝ) - g (p.1 : ℝ)) ^ 2)).sum
      let mean := (sub.map (fun p => (p.2 : ℝ))).sum / (sub.length : ℝ)
      let ss_tot := (sub.map (fun p => ((p.2 : ℝ) - mean) ^ 2)).sum
      let x_fine := linspace (roi.x_min : ℝ) (roi.x_max : ℝ) 1000
      let gaussFine := x_fine.map (fun x =>
        popt.getD 0 0 * Real.exp (-(x - popt.getD 1 0) ^ 2 / (2 * (popt.getD 2 0) ^ 2)))
      { params := popt
        cov := pcov
        fwhm := 2 * Real.sqrt (2 * Real.log 2) * popt.getD 2 0
        integral := simps gaussFine x_fine
        r_squared := 1 - ss_res / ss_tot }
  | none =>
      { params := p0.map (fun q => (q : ℝ))
        cov := List.replicate 5 (List.replicate 5 (0 : ℝ))
        fwhm := 0
        integral := 0
        r_squared := 0 }

/-- `fit_peaks`: early return when no region is selected; otherwise discard
all previous fit results and rebuild them by iterating the ROIs in region
order, skipping (`continue`) every ROI whose mask selects no samples. -/
noncomputable def fit_peaks (solver : Solver) (ds : Dataset) : Dataset :=
  if ds.selected_regions = [] then ds
  else
    let results := ds.selected_regions.foldl
      (fun acc roi =>
        if (subsetOf ds.currentPoints roi).isEmpty then acc
        else acc ++ [fitOne solver (subsetOf ds.currentPoints roi) roi]) []
    { ds with fit_results := results }

/-- `HC_KEV_ANGSTROM = 12.39842` keV·Å, the Planck-constant–speed-of-light
product used by the 2θ calibration. -/
def HC_KEV_ANGSTROM : ℚ := 12.39842

/-- The row scan of `calibrate_2theta` over the reference-pair table: a cell
is `some q` when the table item exists, has nonempty text, and parses as a
float `q`; it is `none` when missing, empty, or non-numeric (the `ValueError`
branch does `continue`). Only rows with both cells present survive. -/
def collect_pairs (rows : List (Option ℚ × Option ℚ)) : List (ℚ × ℚ) :=
  rows.filterMap (fun r =>
    match r with
    | (some d, some E) => some (d, E)
    | _ => none)

/-- Failure modes of `calibrate_2theta`: the explicit zero-pair warning, and
the `except Exception` branch (reached e.g. by a Python `ZeroDivisionError`
when `2*d*E = 0`). -/
inductive CalibError where
  | insufficientData
  | calibrationFailed
  deriving DecidableEq

/-- The stored calibration outcome (`self.calib_params` plus the pair count
of the status text). A `none` component models a NumPy NaN aggregate. -/
structure Calib2ThetaResult where
  mean_two_theta_deg : Option ℝ
  std_two_theta_deg : Option ℝ
  n_pairs : ℕ
  constant_used : ℚ

/-- `2 * np.degrees(np.arcsin(HC_KEV_ANGSTROM / (2*d*E)))` for one pair.
The NumPy arcsine does not raise on an argument outside `[-1, 1]`: it emits a
RuntimeWarning and returns NaN, modelled as `none`. The `2*d*E = 0` case
(a Python `ZeroDivisionError`) is handled by the caller. -/
noncomputable def twothetaDeg (d E : ℚ) : Option ℝ :=
  let arg : ℚ := HC_KEV_ANGSTROM / (2 * d * E)
  if -1 ≤ arg ∧ arg ≤ 1 then
    some (2 * (Real.arcsin ((arg : ℚ) : ℝ) * 180 / Real.pi))
  else none

/-- `calibrate_2theta` on the collected pairs: zero pairs warn and abort;
a zero denominator raises inside the `try` block and aborts; otherwise the
per-pair `2θ` values are aggregated with `np.mean` and `np.std` (population
standard deviation), a NaN from an out-of-domain arcsine propagating into
both aggregates rather than raising. -/
noncomputable def calibrate_2theta (pairs : List (ℚ × ℚ)) :
    Except CalibError Calib2ThetaResult :=
  if pairs.length = 0 then .error .insufficientData
  else if pairs.any (fun p => decide (2 * p.1 * p.2 = 0)) then
    .error .calibrationFailed
  else
    let thetas := pairs.map (fun p => twothetaDeg p.1 p.2)
    if thetas.all Option.isSome then
      let vals := thetas.reduceOption
      let mean := vals.sum / (pairs.length : ℝ)
      let std := Real.sqrt ((vals.map (fun t => (t - mean) ^ 2)).sum
        / (pairs.length : ℝ))
      .ok ⟨some mean, some std, pairs.length, HC_KEV_ANGSTROM⟩
    else .ok ⟨none, none, pairs.length, HC_KEV_ANGSTROM⟩

/-- The in-domain per-pair value: `θ_i = 2·arcsin(hc/(2·d_i·E_i))` in
degrees. -/
noncomputable def thetaOf (p : ℚ × ℚ) : ℝ :=
  2 * (Real.arcsin ((HC_KEV_ANGSTROM / (2 * p.1 * p.2) : ℚ) : ℝ) * 180 / Real.pi)

/-- Errors of the import path: the `ValueError` raised for a table that is
not 2-D with at least two columns. -/
inductive ImportError where
  | invalidFormat
  deriving DecidableEq

/-- The dimensionality of the array `np.loadtxt` yields for a rectangular
`nrows × ncols` numeric table: NumPy squeezes a single row or a single column
to a 1-D array (and a single scalar to 0-D); only a table with at least two
rows and two columns loads as a 2-D array. -/
def loadtxt_ndim (nrows ncols : ℕ) : ℕ :=
  if 2 ≤ nrows ∧ 2 ≤ ncols then 2
  else if nrows = 1 ∧ ncols = 1 then 0
  else 1

/-- The data path of `import_data` once a file is chosen: load the numeric
table, raise `ValueError` unless the loaded array is 2-D with at least two
columns, drop the last row (`raw_data[:-1]`, the partial/terminator record),
and create the dataset from the truncated table. -/
def import_data (table : List (List ℚ)) : Except ImportError Dataset :=
  let nrows := table.length
  let ncols := (table.headD []).length
  if loadtxt_ndim nrows ncols ≠ 2 ∨ ncols < 2 then .error .invalidFormat
  else .ok (Dataset.init table.dropLast)

/-- The mutating core operations a caller can invoke on a dataset after
import: energy calibration, ROI commit, peak fitting, clear-all. -/
inductive Op where
  | calibrate (a b c : ℚ)
  | release (x_start x_current : ℚ)
  | fit (solver : Solver)
  | clearAll

/-- Run one core operation on a dataset. -/
noncomputable def applyOp : Op → Dataset → Dataset
  | .calibrate a b c, ds => adjust_energy_axis ds a b c
  | .release x_start x_current, ds => on_release ds x_start x_current
  | .fit solver, ds => fit_peaks solver ds
  | .clearAll, ds => clear_all ds

/-- Run a sequence of core operations, first to last. -/
noncomputable def applyOps (ops : List Op) (ds : Dataset) : Dataset :=
  ops.foldl (fun d op => applyOp op d) ds

/-- A dataset with three raw samples and one committed ROI, used to
instantiate the ROI and fitting theorems at a concrete input. -/
def dsExample : Dataset :=
  { raw_data := [[0, 1], [1, 5], [2, 2]]
    adjusted_data := [[0, 1], [1, 5], [2, 2]]
    fit_results := []
    selected_regions := [⟨0, 2, 2, "#1f77b4"⟩]
    x_axis_adjusted := false }

/-- A dataset whose first ROI lies entirely outside the sampled x-range
(empty subset) while the second ROI covers it. -/
def dsGap : Dataset :=
  { raw_data := [[0, 1], [1, 5], [2, 2]]
    adjusted_data := [[0, 1], [1, 5], [2, 2]]
    fit_results := []
    selected_regions := [⟨10, 12, 2, "#1f77b4"⟩, ⟨0, 2, 2, "#ff7f0e"⟩]
    x_axis_adjusted := false }

/-- A constantly failing solver: every `curve_fit` call raises. -/
def solverNone : Solver := fun _ _ _ => none

/-- The single reference pair `(d, E) = (2.1065 Å, 5.9 keV)`. -/
def pairsExample : List (ℚ × ℚ) := [(2.1065, 5.9)]

end SSRF

namespace SSRF

/-- A left fold that either skips an element or appends its image equals
filtering the kept elements and mapping over them. -/
theorem foldl_skip_append {α β : Type _} (p : α → Bool) (f : α → β) :
    ∀ (l : List α) (init : List β),
      l.foldl (fun acc x => if p x then acc else acc ++ [f x]) init
        = init ++ (l.filter (fun x => !p x)).map f := by
  intro l
  induction l with
  | nil => intro init; simp
  | cons x xs ih =>
      intro init
      cases hx : p x <;> simp [List.filter_cons, hx, ih]

/-- The fit-result list `fit_peaks` rebuilds, characterized: the ROIs whose
subset is nonempty, in region order, each mapped through `fitOne`. -/
theorem fit_peaks_results (solver : Solver) (ds : Dataset)
    (h : ds.selected_regions ≠ []) :
    (fit_peaks solver ds).fit_results
      = (ds.selected_regions.filter
          (fun roi => !(subsetOf ds.currentPoints roi).isEmpty)).map
        (fun roi => fitOne solver (subsetOf ds.currentPoints roi) roi) := by
  unfold fit_peaks
  rw [if_neg h]
  exact foldl_skip_append (fun roi => (subsetOf ds.currentPoints roi).isEmpty)
    (fun roi => fitOne solver (subsetOf ds.currentPoints roi) roi)
    ds.selected_regions []

/-- `fit_peaks` touches only `fit_results`. -/
theorem fit_peaks_frame (solver : Solver) (ds : Dataset) :
    (fit_peaks solver ds).raw_data = ds.raw_data
      ∧ (fit_peaks solver ds).adjusted_data = ds.adjusted_data
      ∧ (fit_peaks solver ds).selected_regions = ds.selected_regions
      ∧ (fit_peaks solver ds).x_axis_adjusted = ds.x_axis_adjusted := by
  unfold fit_peaks
  split <;> exact ⟨rfl, rfl, rfl, rfl⟩

/-- **C1.** Applying the energy calibration yields an adjusted table whose
x-column is `a*channel^2 + b*channel + c` of the raw channel column,
element-wise, and whose counts column is identical to the raw counts column. -/
theorem C1_adjust_energy_axis_columns (ds : Dataset) (a b c : ℚ) :
    ((adjust_energy_axis ds a b c).adjusted_data).map (col 0)
        = ds.raw_data.map (fun row => a * (col 0 row) ^ 2 + b * (col 0 row) + c)
      ∧ ((adjust_energy_axis ds a b c).adjusted_data).map (col 1)
        = ds.raw_data.map (col 1) := by
  constructor <;>
    simp [adjust_energy_axis, clear_all, List.map_map, Function.comp, col]

/-- **C2.** After applying an energy calibration the dataset has zero ROIs,
zero fit results, and `x_axis_adjusted = true`, whatever was there before. -/
theorem C2_calibration_clears_rois (ds : Dataset) (a b c : ℚ) :
    (adjust_energy_axis ds a b c).selected_regions = []
      ∧ (adjust_energy_axis ds a b c).fit_results = []
      ∧ (adjust_energy_axis ds a b c).x_axis_adjusted = true := by
  refine ⟨rfl, rfl, rfl⟩

/-- **C7.** An ROI commit creates nothing when `|x_current - x_start| ≤ 0.001`;
otherwise it appends one region with normalized bounds, `width = x_max - x_min`,
and the palette color at index `len(selected_regions) % 10`. -/
theorem C7_roi_commit (ds : Dataset) (x_start x_current : ℚ) :
    (|x_current - x_start| ≤ 1 / 1000 → on_release ds x_start x_current = ds)
      ∧ (1 / 1000 < |x_current - x_start| →
          (on_release ds x_start x_current).selected_regions
            = ds.selected_regions
              ++ [{ x_min := min x_start x_current
                    x_max := max x_start x_current
                    width := max x_start x_current - min x_start x_current
                    color := colors.getD (ds.selected_regions.length % 10) "" }]) := by
  constructor
  · intro h
    simp only [on_release]
    rw [if_neg (not_lt.mpr h)]
  · intro h
    simp only [on_release]
    rw [if_pos h]
    have hw : |max x_start x_current - min x_start x_current|
        = max x_start x_current - min x_start x_current :=
      abs_of_nonneg (sub_nonneg.mpr min_le_max)
    simp [hw, colors]

/-- **C5.** When every ROI selects at least one sample, every ROI receives
exactly one fit record; and whichever ROI the solver fails on receives, in
its place, the degenerate placeholder: the initial-guess parameters, a 5×5
zero covariance matrix, `fwhm = 0`, `integral = 0`, `r_squared = 0`. -/
theorem C5_degenerate_result_on_failure (solver : Solver) (ds : Dataset)
    (hne : ds.selected_regions ≠ [])
    (hsub : ∀ roi ∈ ds.selected_regions, subsetOf ds.currentPoints roi ≠ []) :
    (fit_peaks solver ds).fit_results.length = ds.selected_regions.length
      ∧ ∀ i : ℕ, ∀ hi : i < ds.selected_regions.length,
          solver (subsetOf ds.currentPoints (ds.selected_regions.get ⟨i, hi⟩))
              (initialGuess
                (subsetOf ds.currentPoints (ds.selected_regions.get ⟨i, hi⟩))
                (ds.selected_regions.get ⟨i, hi⟩))
              (ds.selected_regions.get ⟨i, hi⟩) = none →
          (fit_peaks solver ds).fit_results.get? i
            = some
              { params := (initialGuess
                    (subsetOf ds.currentPoints (ds.selected_regions.get ⟨i, hi⟩))
                    (ds.selected_regions.get ⟨i, hi⟩)).map (fun q => (q : ℝ))
                cov := List.replicate 5 (List.replicate 5 (0 : ℝ))
                fwhm := 0
                integral := 0
                r_squared := 0 } := by
  have h1 := fit_peaks_results solver ds hne
  have h2 : ds.selected_regions.filter
      (fun roi => !(subsetOf ds.currentPoints roi).isEmpty)
      = ds.selected_regions := by
    apply List.filter_eq_self.mpr
    intro roi hroi
    simpa using hsub roi hroi
  constructor
  · rw [h1, h2, List.length_map]
  · intro i hi hnone
    rw [h1, h2, List.get?_map, List.get?_eq_get hi]
    simp only [Option.map_some']
    rw [fitOne]
    rw [hnone]

/-- Witness for C5: the one-ROI dataset `dsExample` under the always-failing
solver. -/
theorem C5_degenerate_result_on_failure_witness :
    dsExample.selected_regions ≠ []
      ∧ (∀ roi ∈ dsExample.selected_regions,
          subsetOf dsExample.currentPoints roi ≠ [])
      ∧ (fit_peaks solverNone dsExample).fit_results.length
        = dsExample.selected_regions.length :=
  ⟨by decide, by decide,
    (C5_degenerate_result_on_failure solverNone dsExample (by decide)
      (by decide)).1⟩

/-- **C6.** Fitting produces exactly one record per ROI whose subset is
nonempty, in region order: an ROI selecting zero samples is skipped (nothing
appended for it) and the remaining ROIs are fitted exactly as if the empty
one were absent. -/
theorem C6_empty_subset_roi_skipped (solver : Solver) (ds : Dataset)
    (hne : ds.selected_regions ≠ []) :
    (fit_peaks solver ds).fit_results
        = (ds.selected_regions.filter
            (fun roi => !(subsetOf ds.currentPoints roi).isEmpty)).map
          (fun roi => fitOne solver (subsetOf ds.currentPoints roi) roi)
      ∧ (fit_peaks solver ds).fit_results.length
        = (ds.selected_regions.filter
            (fun roi => !(subsetOf ds.currentPoints roi).isEmpty)).length := by
  refine ⟨fit_peaks_results solver ds hne, ?_⟩
  rw [fit_peaks_results solver ds hne, List.length_map]

/-- Witness for C6: on `dsGap` the empty-subset ROI contributes nothing. -/
theorem C6_empty_subset_roi_skipped_witness :
    dsGap.selected_regions ≠ []
      ∧ (fit_peaks solverNone dsGap).fit_results
        = (dsGap.selected_regions.filter
            (fun roi => !(subsetOf dsGap.currentPoints roi).isEmpty)).map
          (fun roi => fitOne solverNone (subsetOf dsGap.currentPoints roi) roi) :=
  ⟨by decide, (C6_empty_subset_roi_skipped solverNone dsGap (by decide)).1⟩

/-- **C9.** No core operation modifies the raw series: calibration, fitting,
ROI commit and clearing all leave `raw_data` (both of its columns) unchanged. -/
theorem C9_raw_series_immutable (ds : Dataset) (a b c x_start x_current : ℚ)
    (solver : Solver) :
    (adjust_energy_axis ds a b c).raw_data = ds.raw_data
      ∧ (fit_peaks solver ds).raw_data = ds.raw_data
      ∧ (on_release ds x_start x_current).raw_data = ds.raw_data
      ∧ (clear_all ds).raw_data = ds.raw_data := by
  refine ⟨rfl, (fit_peaks_frame solver ds).1, ?_, rfl⟩
  unfold on_release
  split <;> rfl

/-- Every single core operation preserves
`fit_results.length ≤ selected_regions.length`. -/
theorem applyOp_preserves_le (op : Op) (ds : Dataset)
    (h : ds.fit_results.length ≤ ds.selected_regions.length) :
    (applyOp op ds).fit_results.length
      ≤ (applyOp op ds).selected_regions.length := by
  cases op with
  | calibrate a b c => simp [applyOp, adjust_energy_axis, clear_all]
  | release x_start x_current =>
      simp only [applyOp]
      unfold on_release
      split
      · simpa using Nat.le_succ_of_le h
      · exact h
  | fit solver =>
      simp only [applyOp]
      by_cases hne : ds.selected_regions = []
      · rw [show fit_peaks solver ds = ds from if_pos hne]
        exact h
      · rw [(fit_peaks_frame solver ds).2.2.1, fit_peaks_results solver ds hne,
          List.length_map]
        exact List.length_filter_le _ _
  | clearAll => simp [applyOp, clear_all]

/-- Sequences of core operations preserve the length invariant. -/
theorem applyOps_preserves_le (ops : List Op) :
    ∀ ds : Dataset,
      ds.fit_results.length ≤ ds.selected_regions.length →
      (applyOps ops ds).fit_results.length
        ≤ (applyOps ops ds).selected_regions.length := by
  induction ops with
  | nil => intro ds h; exact h
  | cons op ops ih =>
      intro ds h
      exact ih (applyOp op ds) (applyOp_preserves_le op ds h)

/-- **C10.** Along every sequence of core operations from an imported
dataset, the fit-result list is never longer than the ROI list; and running a
fit on any reachable state yields exactly one result per nonempty-subset ROI,
the i-th result belonging to the i-th such ROI in region order (even when the
region list is empty, where the early return leaves the — necessarily empty —
result list in place). -/
theorem C10_fit_result_alignment (raw : List (List ℚ)) (ops : List Op) :
    (applyOps ops (Dataset.init raw)).fit_results.length
        ≤ (applyOps ops (Dataset.init raw)).selected_regions.length
      ∧ ∀ solver : Solver,
          (fit_peaks solver (applyOps ops (Dataset.init raw))).fit_results
            = ((applyOps ops (Dataset.init raw)).selected_regions.filter
                (fun roi =>
                  !(subsetOf (applyOps ops (Dataset.init raw)).currentPoints
                      roi).isEmpty)).map
              (fun roi =>
                fitOne solver
                  (subsetOf (applyOps ops (Dataset.init raw)).currentPoints roi)
                  roi) := by
  have hle : (applyOps ops (Dataset.init raw)).fit_results.length
      ≤ (applyOps ops (Dataset.init raw)).selected_regions.length :=
    applyOps_preserves_le ops (Dataset.init raw) (by simp [Dataset.init])
  refine ⟨hle, ?_⟩
  intro solver
  set ds := applyOps ops (Dataset.init raw) with hds
  by_cases hne : ds.selected_regions = []
  · have hfr : ds.fit_results = [] := by
      rw [hne] at hle
      exact List.length_eq_zero.mp (Nat.le_zero.mp hle)
    rw [show fit_peaks solver ds = ds from if_pos hne, hfr, hne]
    simp
  · exact fit_peaks_results solver ds hne

/-- **C8.** Import fails with the invalid-format error whenever the table has
fewer than two columns or would be left with zero rows by the last-row
truncation; on success it truncates the last row and creates a dataset whose
adjusted series is an exact copy of the truncated raw series, with
`x_axis_adjusted = false` and empty ROI/fit lists. -/
theorem C8_import_truncation_and_format (table : List (List ℚ)) :
    ((table.headD []).length < 2 ∨ table.length < 2 →
        import_data table = .error .invalidFormat)
      ∧ (2 ≤ table.length → 2 ≤ (table.headD []).length →
          import_data table
            = .ok { raw_data := table.dropLast
                    adjusted_data := table.dropLast
                    fit_results := []
                    selected_regions := []
                    x_axis_adjusted := false }) := by
  constructor
  · intro h
    have hnd : loadtxt_ndim table.length (table.headD []).length ≠ 2
        ∨ (table.headD []).length < 2 := by
      rcases h with h | h
      · exact Or.inr h
      · refine Or.inl ?_
        unfold loadtxt_ndim
        split
        · omega
        · split <;> omega
    unfold import_data
    rw [if_pos hnd]
  · intro h1 h2
    have hnd : ¬(loadtxt_ndim table.length (table.headD []).length ≠ 2
        ∨ (table.headD []).length < 2) := by
      push_neg
      refine ⟨?_, h2⟩
      unfold loadtxt_ndim
      rw [if_pos ⟨h1, h2⟩]
    unfold import_data
    rw [if_neg hnd]
    rfl

/-- Witness for C8: a 3×2 table imports as its first two rows; a 1-row table
is rejected. -/
theorem C8_import_truncation_and_format_witness :
    (2 ≤ ([[1, 2], [3, 4], [5, 6]] : List (List ℚ)).length
      ∧ import_data ([[1, 2], [3, 4], [5, 6]] : List (List ℚ))
          = .ok { raw_data := [[1, 2], [3, 4]]
                  adjusted_data := [[1, 2], [3, 4]]
                  fit_results := []
                  selected_regions := []
                  x_axis_adjusted := false })
    ∧ (([[1, 2]] : List (List ℚ)).length < 2
      ∧ import_data ([[1, 2]] : List (List ℚ)) = .error .invalidFormat) :=
  ⟨⟨by decide,
    (C8_import_truncation_and_format [[1, 2], [3, 4], [5, 6]]).2
      (by decide) (by decide)⟩,
   ⟨by decide,
    (C8_import_truncation_and_format [[1, 2]]).1 (Or.inr (by decide))⟩⟩

/-- Collapsing `reduceOption` over a list of guaranteed `some` values. -/
theorem reduceOption_map_some {α β : Type _} (l : List α) (f : α → β) :
    (l.map (fun a => some (f a))).reduceOption = l.map f := by
  induction l with
  | nil => rfl
  | cons a l ih => simp [List.reduceOption_cons_of_some, ih]

/-- **C3.** On a nonempty pair list whose arcsine arguments are all in
domain (and denominators nonzero), the 2θ calibration succeeds with the
arithmetic mean of `θ_i = 2·arcsin(hc/(2·d_i·E_i))` in degrees, the
population standard deviation (divisor `n`) of those values, the pair count,
and the constant `hc = 12.39842`. -/
theorem C3_calibrate_2theta_mean_std (pairs : List (ℚ × ℚ))
    (hne : pairs ≠ [])
    (hdom : ∀ p ∈ pairs, 2 * p.1 * p.2 ≠ 0
        ∧ -1 ≤ HC_KEV_ANGSTROM / (2 * p.1 * p.2)
        ∧ HC_KEV_ANGSTROM / (2 * p.1 * p.2) ≤ 1) :
    calibrate_2theta pairs
      = .ok { mean_two_theta_deg :=
                some ((pairs.map thetaOf).sum / (pairs.length : ℝ))
              std_two_theta_deg :=
                some (Real.sqrt
                  ((pairs.map (fun p => (thetaOf p
                      - (pairs.map thetaOf).sum / (pairs.length : ℝ)) ^ 2)).sum
                    / (pairs.length : ℝ)))
              n_pairs := pairs.length
              constant_used := HC_KEV_ANGSTROM } := by
  have hlen : ¬ pairs.length = 0 := fun h => hne (List.length_eq_zero.mp h)
  have hany : pairs.any (fun p => decide (2 * p.1 * p.2 = 0)) = false := by
    simp only [List.any_eq_false, decide_eq_true_eq]
    intro p hp
    exact (hdom p hp).1
  have hmap : pairs.map (fun p => twothetaDeg p.1 p.2)
      = pairs.map (fun p => some (thetaOf p)) := by
    apply List.map_congr_left
    intro p hp
    simp only [twothetaDeg, thetaOf]
    rw [if_pos ⟨(hdom p hp).2.1, (hdom p hp).2.2⟩]
  have hall : (pairs.map (fun p => some (thetaOf p))).all Option.isSome = true := by
    simp only [List.all_eq_true, List.mem_map]
    rintro o ⟨p, -, rfl⟩
    rfl
  unfold calibrate_2theta
  rw [if_neg hlen, if_neg (by rw [hany]; exact Bool.false_ne_true)]
  simp only [hmap, hall, eq_self_iff_true, if_true, reduceOption_map_some,
    List.map_map]
  rfl

/-- Witness for C3 at the single pair `(2.1065, 5.9)`. -/
theorem C3_calibrate_2theta_mean_std_witness :
    (pairsExample ≠ []
      ∧ ∀ p ∈ pairsExample, 2 * p.1 * p.2 ≠ 0
          ∧ -1 ≤ HC_KEV_ANGSTROM / (2 * p.1 * p.2)
          ∧ HC_KEV_ANGSTROM / (2 * p.1 * p.2) ≤ 1)
    ∧ calibrate_2theta pairsExample
      = .ok { mean_two_theta_deg :=
                some ((pairsExample.map thetaOf).sum / (pairsExample.length : ℝ))
              std_two_theta_deg :=
                some (Real.sqrt
                  ((pairsExample.map (fun p => (thetaOf p
                      - (pairsExample.map thetaOf).sum
                        / (pairsExample.length : ℝ)) ^ 2)).sum
                    / (pairsExample.length : ℝ)))
              n_pairs := pairsExample.length
              constant_used := HC_KEV_ANGSTROM } :=
  ⟨⟨by simp [pairsExample], by
      intro p hp
      rw [List.mem_singleton.mp hp]
      refine ⟨by norm_num [pairsExample], ?_, ?_⟩ <;>
        norm_num [pairsExample, HC_KEV_ANGSTROM]⟩,
   C3_calibrate_2theta_mean_std pairsExample (by simp [pairsExample]) (by
      intro p hp
      rw [List.mem_singleton.mp hp]
      refine ⟨by norm_num [pairsExample], ?_, ?_⟩ <;>
        norm_num [pairsExample, HC_KEV_ANGSTROM])⟩

/-- **C4.** Evaluation of the 2θ calibration at the disputed inputs: with no
pairs, and with only incomplete rows, it does fail with the
insufficient-data error; but at the complete pair `(d, E) = (1, 1)`, whose
arcsine argument `12.39842 / 2 > 1` is out of domain, it does **not** fail —
`np.arcsin` silently yields NaN, and the calibration returns a NaN mean and
NaN standard deviation as a success. -/
theorem C4_out_of_domain_returns_nan :
    calibrate_2theta [] = .error .insufficientData
      ∧ calibrate_2theta (collect_pairs [(none, some 5), (some 2, none)])
        = .error .insufficientData
      ∧ calibrate_2theta [((1 : ℚ), (1 : ℚ))]
        = .ok { mean_two_theta_deg := none
                std_two_theta_deg := none
                n_pairs := 1
                constant_used := HC_KEV_ANGSTROM } := by
  refine ⟨rfl, rfl, ?_⟩
  have harg : twothetaDeg 1 1 = none := by
    unfold twothetaDeg
    rw [if_neg]
    norm_num [HC_KEV_ANGSTROM]
  have hz : ¬ (2 * (1 : ℚ) * 1 = 0) := by norm_num
  simp [calibrate_2theta, harg, hz]

/-- Witness for C7 at the empty dataset, `x_start = 0`, `x_current = 1`. -/
theorem C7_roi_commit_witness :
    (1 / 1000 : ℚ) < |(1 : ℚ) - 0|
      ∧ (on_release (Dataset.init []) 0 1).selected_regions
        = [{ x_min := min (0 : ℚ) 1, x_max := max (0 : ℚ) 1,
             width := max (0 : ℚ) 1 - min (0 : ℚ) 1,
             color := colors.getD ((Dataset.init []).selected_regions.length % 10) "" }] :=
  ⟨by norm_num, (C7_roi_commit (Dataset.init []) 0 1).2 (by norm_num)⟩

end SSRF
